import Mathlib

/-
Verification of the medi-care OTP engine against its specification.

The definitions below are a shallow embedding of the JavaScript source:
- the Express backend handlers in the backend entry file (request-otp,
  verify-otp, signup), with the Supabase store modelled as an explicit
  list of rows passed through each operation;
- the client-side DatabaseService in medical-login-page/ds.js (Map-based
  OTP storage, sendRegistrationOTP, resendOTP);
- the client countdown timer logic in medical-login-page/register.js
  (startOTPTimer, clearOTPTimer, resendOTP, expiry tick), modelled as an
  event-driven transition system over the set of live interval handles.

Machine integers are Nat (timestamps in milliseconds); fallible database
and email operations are modelled by explicit success flags where a claim
depends on the failure path, and assumed successful elsewhere.
HMAC-SHA256 cannot be shallowly embedded; it is modelled as an injective
pairing of code and salt, which validates exactly the equality tests the
source performs (same-salt hash comparison).
-/

namespace MediCare

/-- OTP time-to-live of the backend: 5 minutes in milliseconds. -/
def OTP_TTL_MS : Nat := 5 * 60 * 1000

/-- Maximum failed verification attempts tolerated by the backend. -/
def MAX_OTP_ATTEMPTS : Nat := 5

/-- Expiry window of the client-side DatabaseService: 10 minutes in ms. -/
def CLIENT_OTP_EXPIRY_MS : Nat := 10 * 60 * 1000

/-- Model of hashOtp: HMAC-SHA256(secret, otp + salt). The keyed hash is
modelled as an injective pairing of the code and the salt, which is
faithful for every comparison the source makes (equality of hashes
computed with the same salt). -/
def hashOtp (otp salt : String) : String := otp ++ "#" ++ salt

/-- The whitespace class stripped by JavaScript String.prototype.trim,
restricted to its ASCII members (space, tab, newline, carriage return,
vertical tab, form feed). -/
def isJsWhitespace (c : Char) : Bool :=
  c == ' ' || c == '\t' || c == '\n' || c == '\r' || c == '\x0b' || c == '\x0c'

/-- Strip leading and trailing whitespace from a character list. -/
def jsTrimList (l : List Char) : List Char :=
  ((l.dropWhile isJsWhitespace).reverse.dropWhile isJsWhitespace).reverse

/-- Model of JavaScript String.prototype.trim. -/
def jsTrim (s : String) : String := ⟨jsTrimList s.data⟩

/-- Decimal digit to its character, as produced by JavaScript String(n). -/
def digitChar (d : Nat) : Char :=
  match d with
  | 0 => '0' | 1 => '1' | 2 => '2' | 3 => '3' | 4 => '4'
  | 5 => '5' | 6 => '6' | 7 => '7' | 8 => '8' | 9 => '9'
  | _ => '*'

/-- Decimal digit characters of n, most significant first; the first
argument is recursion fuel (any fuel above n computes the digits). -/
def natToDecAux : Nat → Nat → List Char
  | 0, _ => []
  | fuel + 1, n =>
    if n < 10 then [digitChar n]
    else natToDecAux fuel (n / 10) ++ [digitChar (n % 10)]

/-- Model of JavaScript String(n) for a nonnegative integer n: the plain
decimal representation, with no padding. -/
def natToDecimal (n : Nat) : String := ⟨natToDecAux (n + 1) n⟩

/-- Contract of crypto.randomInt(lo, hi): a uniformly drawn integer n with
lo ≤ n < hi (the upper bound is exclusive). -/
abbrev randomIntRange (lo hi n : Nat) : Prop := lo ≤ n ∧ n < hi

/-- Model of genOtp: String(crypto.randomInt(100000, 999999)), as a
function of the drawn integer r (which satisfies
randomIntRange 100000 999999 r). -/
def genOtp (r : Nat) : String := natToDecimal r

/-- A row of the otp_records table. -/
structure OtpRecord where
  id : Nat
  contact : String
  otpHash : String
  salt : String
  createdAt : Nat
  expiresAt : Nat
  consumed : Bool
  attempts : Nat
deriving DecidableEq

/-- A row of the users table (the fields the signup handler writes). -/
structure UserAccount where
  email : String
  name : String
  phone : String
  age : Nat
deriving DecidableEq

/-- The database state visible to the backend handlers. -/
structure Store where
  otpRecords : List OtpRecord
  users : List UserAccount
deriving DecidableEq

/-- An email handed to the delivery channel: recipient and plaintext code. -/
structure EmailMsg where
  recipient : String
  code : String
deriving DecidableEq

/-- Comparator realising "order by created_at descending, limit 1": keep
the record created later (the first seen wins ties). -/
def newerRecord (a b : OtpRecord) : OtpRecord :=
  if b.createdAt > a.createdAt then b else a

/-- The newest otp_records row for a contact, as fetched by the verify
handler (filter by contact, order by created_at desc, limit 1). -/
def latestOtpRecord (recs : List OtpRecord) (contact : String) : Option OtpRecord :=
  match recs.filter (fun r => r.contact == contact) with
  | [] => none
  | r :: rs => some (rs.foldl newerRecord r)

/-- Outcomes of POST /auth/verify-otp (the discriminated error field of
the JSON response; success is the 200 response). -/
inductive VerifyResult where
  | notFound
  | alreadyUsed
  | expired
  | tooManyAttempts
  | invalidOtp (attemptsRemaining : Nat)
  | success
deriving DecidableEq

/-- The POST /auth/verify-otp handler. Fetches the newest record for the
contact, applies the consumed / expired / attempt-cap checks in the
source's order, then compares the salted hash of the trimmed candidate;
a mismatch persists attempts+1, a match persists consumed = true.
Database reads and writes are modelled as succeeding. -/
def verifyOtp (st : Store) (contact otp : String) (now : Nat) : VerifyResult × Store :=
  match latestOtpRecord st.otpRecords contact with
  | none => (.notFound, st)
  | some rec =>
    if rec.consumed then (.alreadyUsed, st)
    else if now > rec.expiresAt then (.expired, st)
    else if rec.attempts ≥ MAX_OTP_ATTEMPTS then (.tooManyAttempts, st)
    else if hashOtp (jsTrim otp) rec.salt ≠ rec.otpHash then
      (.invalidOtp (MAX_OTP_ATTEMPTS - (rec.attempts + 1)),
        { st with otpRecords := st.otpRecords.map (fun r =>
            if r.id = rec.id then { r with attempts := rec.attempts + 1 } else r) })
    else
      (.success,
        { st with otpRecords := st.otpRecords.map (fun r =>
            if r.id = rec.id then { r with consumed := true } else r) })

/-- State reached after n calls to verify with the same contact,
candidate and clock (the result of each call is discarded). -/
def verifyStateN (contact otp : String) (now : Nat) : Nat → Store → Store
  | 0, st => st
  | n + 1, st => verifyStateN contact otp now n (verifyOtp st contact otp now).2

/-- Outcomes of POST /auth/request-otp. -/
inductive RequestResult where
  | dbError
  | emailError
  | success (expiresInSec : Nat)
deriving DecidableEq

/-- The otp_records row inserted by the request-otp handler. -/
def freshOtpRecord (email : String) (now id : Nat) (code salt : String) : OtpRecord :=
  { id := id
    contact := email
    otpHash := hashOtp code salt
    salt := salt
    createdAt := now
    expiresAt := now + OTP_TTL_MS
    consumed := false
    attempts := 0 }

/-- The POST /auth/request-otp handler: delete expired rows for the email,
insert the fresh record, then attempt the email send. The generated code
and salt enter as parameters (they come from genOtp and randomBytes);
persistOk and emailOk model whether the insert and the send succeed. The
third component lists the emails actually delivered. -/
def requestOtp (st : Store) (email : String) (now id : Nat) (code salt : String)
    (persistOk emailOk : Bool) : RequestResult × Store × List EmailMsg :=
  let cleaned := st.otpRecords.filter (fun r =>
    !(r.contact == email && decide (r.expiresAt < now)))
  let st1 : Store := { st with otpRecords := cleaned }
  if !persistOk then (.dbError, st1, [])
  else
    let st2 : Store := { st1 with otpRecords := st1.otpRecords ++ [freshOtpRecord email now id code salt] }
    if !emailOk then (.emailError, st2, [])
    else (.success (OTP_TTL_MS / 1000), st2, [⟨email, code⟩])

/-- A store holding exactly one OTP record and no users. -/
def singleStore (rec : OtpRecord) : Store := ⟨[rec], []⟩

/-- Outcomes of POST /auth/signup. -/
inductive SignupResult where
  | userExists
  | created (u : UserAccount)
deriving DecidableEq

/-- The POST /auth/signup handler: look up an existing user by exact
email, and if none exists insert the new row (email lowercased, name and
phone trimmed). The insert is modelled as succeeding. OTP state is never
consulted. -/
def signupUser (st : Store) (email name phone : String) (age : Nat) : SignupResult × Store :=
  match st.users.find? (fun u => u.email == email) with
  | some _ => (.userExists, st)
  | none =>
    let u : UserAccount := ⟨email.toLower, jsTrim name, jsTrim phone, age⟩
    (.created u, { st with users := st.users ++ [u] })

/-- An entry of the client DatabaseService otpStorage Map: plaintext otp,
the registration payload held alongside it, expiry instant, and failed
attempt count. The payload is modelled as an association list of fields. -/
structure ClientOtpEntry where
  otp : String
  userData : List (String × String)
  expiryTime : Nat
  attempts : Nat
deriving DecidableEq

/-- Map.get on the otpStorage map (modelled as an association list with
unique keys, insertion order preserved). -/
def getEntry (m : List (String × ClientOtpEntry)) (k : String) : Option ClientOtpEntry :=
  match m with
  | [] => none
  | (k', v) :: rest => if k' == k then some v else getEntry rest k

/-- Map.set on the otpStorage map: overwrite the existing entry in place,
or append a new one. In-place mutation of a fetched entry (as resendOTP
does) has the same effect as set. -/
def setEntry (m : List (String × ClientOtpEntry)) (k : String) (v : ClientOtpEntry) :
    List (String × ClientOtpEntry) :=
  match m with
  | [] => [(k, v)]
  | (k', v') :: rest => if k' == k then (k', v) :: rest else (k', v') :: setEntry rest k v

/-- DatabaseService.sendRegistrationOTP: store a fresh entry for the email
(new code, expiry now + 10 min, attempts 0, the submitted userData) and
send the code. The generated code enters as a parameter. -/
def sendRegistrationOTP (m : List (String × ClientOtpEntry)) (email : String)
    (userData : List (String × String)) (otp : String) (now : Nat) :
    List (String × ClientOtpEntry) × List EmailMsg :=
  (setEntry m email ⟨otp, userData, now + CLIENT_OTP_EXPIRY_MS, 0⟩, [⟨email, otp⟩])

/-- Outcomes of DatabaseService.resendOTP. -/
inductive ResendResult where
  | noPendingRegistration
  | resent (expiryTime : Nat)
deriving DecidableEq

/-- DatabaseService.resendOTP: require an existing entry for the email;
then overwrite that entry's otp, expiryTime and attempts (attempts := 0)
in place and send the new code. -/
def resendOTP (m : List (String × ClientOtpEntry)) (email : String)
    (newOtp : String) (now : Nat) :
    ResendResult × List (String × ClientOtpEntry) × List EmailMsg :=
  match getEntry m email with
  | none => (.noPendingRegistration, m, [])
  | some e =>
    (.resent (now + CLIENT_OTP_EXPIRY_MS),
     setEntry m email { e with otp := newOtp, expiryTime := now + CLIENT_OTP_EXPIRY_MS, attempts := 0 },
     [⟨email, newOtp⟩])

/-- Client-side timer state of the registration page: the set of interval
handles currently scheduled (ids), the handle stored in
this.otpTimerInterval, whether otpExpiryTime has been set, whether the
resend button is disabled, a counter for fresh handle ids, and the
current UI step (1 registration form, 2 OTP form, 3 done). -/
structure TimerState where
  active : List Nat
  handle : Option Nat
  expirySet : Bool
  resendDisabled : Bool
  nextId : Nat
  step : Nat
deriving DecidableEq

/-- startOTPTimer: if otpExpiryTime is unset do nothing; otherwise
schedule a new interval and overwrite this.otpTimerInterval with its
handle. The source does not clear a previously stored handle here. -/
def startOTPTimer (s : TimerState) : TimerState :=
  if !s.expirySet then s
  else { s with active := s.active ++ [s.nextId], handle := some s.nextId, nextId := s.nextId + 1 }

/-- clearOTPTimer: cancel the interval named by this.otpTimerInterval, if
any, and null the field. Intervals whose handle was overwritten are not
reachable from here and stay scheduled. -/
def clearOTPTimer (s : TimerState) : TimerState :=
  match s.handle with
  | some h => { s with active := s.active.filter (fun i => i != h), handle := none }
  | none => s

/-- User-interface events of the registration page that touch the timer. -/
inductive UiEvent where
  | registerSuccess
  | tickExpired
  | resendSuccess
  | resendFailure
  | goBack
  | verifySuccess
deriving DecidableEq

/-- Guards under which each event can fire: registration submits from
step 1; a tick needs a scheduled interval; resend needs the OTP form and
an enabled resend button; back and verify need the OTP form. -/
def uiEnabled (s : TimerState) : UiEvent → Bool
  | .registerSuccess => s.step == 1
  | .tickExpired => !s.active.isEmpty
  | .resendSuccess => s.step == 2 && !s.resendDisabled
  | .resendFailure => s.step == 2 && !s.resendDisabled
  | .goBack => s.step == 2
  | .verifySuccess => s.step == 2

/-- Effect of each event, translated from register.js:
registerSuccess sets otpExpiryTime, shows the OTP form and starts the
timer; tickExpired (timeLeft ≤ 0 in the interval callback) clears the
stored handle and enables resend; resendSuccess disables the button,
sets the new expiry, calls startOTPTimer with no prior clearOTPTimer,
then the finally-block setLoadingState re-enables the button;
resendFailure re-enables the button; goBack and verifySuccess call
clearOTPTimer. -/
def uiStep (s : TimerState) : UiEvent → TimerState
  | .registerSuccess => startOTPTimer { s with expirySet := true, step := 2 }
  | .tickExpired =>
    let s' := clearOTPTimer s
    { s' with resendDisabled := false }
  | .resendSuccess =>
    let s1 := { s with resendDisabled := true }
    let s2 := startOTPTimer { s1 with expirySet := true }
    { s2 with resendDisabled := false }
  | .resendFailure => { s with resendDisabled := false }
  | .goBack => { (clearOTPTimer s) with step := 1 }
  | .verifySuccess => { (clearOTPTimer s) with step := 3 }

/-- Initial state: no timers, no expiry, resend disabled, step 1. -/
def uiInit : TimerState := ⟨[], none, false, true, 0, 1⟩

/-- Run a trace of events, failing if any event fires while its guard is
false; a returned state is therefore reachable through enabled events. -/
def uiRunOk : TimerState → List UiEvent → Option TimerState
  | s, [] => some s
  | s, e :: es => if uiEnabled s e then uiRunOk (uiStep s e) es else none


/-- Outcomes of the verify-otp route: the validateOtpVerification
middleware answers 400 validation_error before the handler runs, or the
handler's own result is returned. -/
inductive RouteResult where
  | validationError
  | ok (r : VerifyResult)
deriving DecidableEq

/-- The body part of validator.js isNumeric with default options, the
check express-validator runs on the otp field: after an optional sign,
the remainder must match ([0-9]*[.])?[0-9]+ (digits, or digits, one dot,
then at least one digit). -/
def jsIsNumericBody (l : List Char) : Bool :=
  match l.dropWhile Char.isDigit with
  | [] => !(l.takeWhile Char.isDigit).isEmpty
  | d :: tail => d == '.' && !tail.isEmpty && tail.all Char.isDigit

/-- validator.js isNumeric with default options: an optional leading sign
followed by the numeric body. The raw string is tested; there is no
trimming. -/
def jsIsNumeric (s : String) : Bool :=
  match s.data with
  | [] => false
  | c :: rest =>
    if c == '+' || c == '-' then jsIsNumericBody rest
    else jsIsNumericBody (c :: rest)

/-- The otp rule of validateOtpVerification in middleware/validation.js:
the raw otp must pass isLength(min 6, max 6) and isNumeric. -/
def validOtpField (otp : String) : Bool :=
  (otp.length == 6) && jsIsNumeric otp

/-- The POST /auth/verify-otp route: validateOtpVerification runs before
the handler, so a request whose contact fails isEmail or whose otp fails
the 6-character numeric rule is answered validation_error and the store
is untouched; otherwise the handler runs. The contact isEmail outcome
enters as the parameter contactOk (it does not depend on the otp field);
normalizeEmail's rewriting of the contact is not modelled, both runs of
any comparison below use the same contact string. -/
def verifyOtpRoute (contactOk : Bool) (st : Store) (contact otp : String) (now : Nat) :
    RouteResult × Store :=
  if contactOk && validOtpField otp then
    (.ok (verifyOtp st contact otp now).1, (verifyOtp st contact otp now).2)
  else (.validationError, st)

end MediCare

namespace MediCare

theorem string_data_inj {s t : String} (h : s.data = t.data) : s = t := by
  cases s; cases t; exact congrArg String.mk h

theorem hashOtp_inj {a b s : String} (h : hashOtp a s = hashOtp b s) : a = b := by
  unfold hashOtp at h
  have hd := congrArg String.data h
  simp only [String.data_append] at hd
  exact string_data_inj (List.append_cancel_right (List.append_cancel_right hd))

theorem head?_dropWhile (p : Char → Bool) (l : List Char) {c : Char}
    (h : (l.dropWhile p).head? = some c) : p c = false := by
  induction l with
  | nil => simp [List.dropWhile] at h
  | cons a t ih =>
    rw [List.dropWhile_cons] at h
    by_cases hp : p a = true
    · exact ih (by simpa [hp] using h)
    · rw [if_neg hp] at h
      simp only [List.head?_cons, Option.some.injEq] at h
      subst h
      simpa using hp

theorem dropWhile_head_not (p : Char → Bool) (l : List Char)
    (h : ∀ c, l.head? = some c → p c = false) : l.dropWhile p = l := by
  cases l with
  | nil => rfl
  | cons a t => rw [List.dropWhile_cons, h a rfl]; simp

theorem getLast?_dropWhile (p : Char → Bool) (l : List Char) {c : Char}
    (hl : l.getLast? = some c) (hc : p c = false) :
    (l.dropWhile p).getLast? = some c := by
  induction l with
  | nil => simp at hl
  | cons a t ih =>
    cases t with
    | nil =>
      simp only [List.getLast?_singleton, Option.some.injEq] at hl
      subst hl
      rw [List.dropWhile_cons, hc]
      simp
    | cons b t' =>
      rw [List.getLast?_cons_cons] at hl
      rw [List.dropWhile_cons]
      by_cases hp : p a = true
      · rw [if_pos hp]; exact ih hl
      · rw [if_neg hp, List.getLast?_cons_cons]; exact hl

theorem jsTrimList_idem (l : List Char) : jsTrimList (jsTrimList l) = jsTrimList l := by
  unfold jsTrimList
  set p := isJsWhitespace with hp
  set u := l.dropWhile p with hu
  set v := u.reverse.dropWhile p with hv
  have hvhead : ∀ c, v.head? = some c → p c = false := fun c h => head?_dropWhile p _ h
  have hwhead : ∀ c, v.reverse.head? = some c → p c = false := by
    intro c h
    rw [List.head?_reverse] at h
    cases hcu : u with
    | nil => rw [hv, hcu] at h; simp [List.dropWhile] at h
    | cons a t =>
      have ha : p a = false := head?_dropWhile p l (by rw [← hu, hcu]; rfl)
      have hlast : v.getLast? = some a := by
        rw [hv]
        exact getLast?_dropWhile p _ (by rw [List.getLast?_reverse, hcu]; rfl) ha
      rw [hlast] at h
      cases h
      exact ha
  rw [dropWhile_head_not p v.reverse hwhead, List.reverse_reverse,
    dropWhile_head_not p v hvhead]

theorem jsTrim_idem (s : String) : jsTrim (jsTrim s) = jsTrim s := by
  unfold jsTrim
  exact congrArg String.mk (jsTrimList_idem s.data)

theorem natToDecAux_succ (fuel n : Nat) :
    natToDecAux (fuel + 1) n =
      if n < 10 then [digitChar n] else natToDecAux fuel (n / 10) ++ [digitChar (n % 10)] := rfl

theorem natToDecAux_fuel {n : Nat} : ∀ {f1 f2 : Nat}, n < f1 → n < f2 →
    natToDecAux f1 n = natToDecAux f2 n := by
  induction n using Nat.strong_induction_on with
  | _ n ih =>
    intro f1 f2 h1 h2
    cases f1 with
    | zero => omega
    | succ g1 =>
      cases f2 with
      | zero => omega
      | succ g2 =>
        rw [natToDecAux_succ, natToDecAux_succ]
        by_cases hlt : n < 10
        · rw [if_pos hlt, if_pos hlt]
        · rw [if_neg hlt, if_neg hlt]
          have hdiv : n / 10 < n := Nat.div_lt_self (by omega) (by omega)
          rw [ih (n / 10) hdiv (show n / 10 < g1 by omega) (show n / 10 < g2 by omega)]

theorem natToDecimal_lt10 {n : Nat} (h : n < 10) :
    (natToDecimal n).data = [digitChar n] := by
  show natToDecAux (n + 1) n = [digitChar n]
  rw [natToDecAux_succ, if_pos h]

theorem natToDecimal_ge10 {n : Nat} (h : 10 ≤ n) :
    (natToDecimal n).data = (natToDecimal (n / 10)).data ++ [digitChar (n % 10)] := by
  have hdiv : n / 10 < n := Nat.div_lt_self (by omega) (by omega)
  show natToDecAux (n + 1) n = natToDecAux (n / 10 + 1) (n / 10) ++ [digitChar (n % 10)]
  rw [natToDecAux_succ, if_neg (by omega : ¬ n < 10)]
  congr 1
  exact natToDecAux_fuel (show n / 10 < n by omega) (show n / 10 < n / 10 + 1 by omega)

theorem natToDecimal_length : ∀ (k n : Nat), 10 ^ k ≤ n → n < 10 ^ (k + 1) →
    (natToDecimal n).data.length = k + 1 := by
  intro k
  induction k with
  | zero =>
    intro n _ h2
    rw [natToDecimal_lt10 (by simpa using h2)]
    rfl
  | succ k ih =>
    intro n h1 h2
    have h10 : 10 ≤ n := le_trans (by calc (10:Nat) = 10 ^ 1 := by norm_num
                                         _ ≤ 10 ^ (k + 1) := Nat.pow_le_pow_right (by omega) (by omega)) h1
    rw [natToDecimal_ge10 h10, List.length_append]
    have hlo : 10 ^ k ≤ n / 10 := by
      rw [Nat.le_div_iff_mul_le (by omega)]
      calc 10 ^ k * 10 = 10 ^ (k + 1) := (pow_succ 10 k).symm
        _ ≤ n := h1
    have hhi : n / 10 < 10 ^ (k + 1) := by
      rw [Nat.div_lt_iff_lt_mul (by omega)]
      calc n < 10 ^ (k + 2) := h2
        _ = 10 ^ (k + 1) * 10 := pow_succ 10 (k + 1)
    rw [ih (n / 10) hlo hhi]
    simp

theorem natToDecimal_head : ∀ (k n : Nat), 10 ^ k ≤ n → n < 10 ^ (k + 1) →
    (natToDecimal n).data.head? = some (digitChar (n / 10 ^ k)) := by
  intro k
  induction k with
  | zero =>
    intro n _ h2
    rw [natToDecimal_lt10 (by simpa using h2)]
    simp
  | succ k ih =>
    intro n h1 h2
    have h10 : 10 ≤ n := le_trans (by calc (10:Nat) = 10 ^ 1 := by norm_num
                                         _ ≤ 10 ^ (k + 1) := Nat.pow_le_pow_right (by omega) (by omega)) h1
    rw [natToDecimal_ge10 h10, List.head?_append]
    have hlo : 10 ^ k ≤ n / 10 := by
      rw [Nat.le_div_iff_mul_le (by omega)]
      calc 10 ^ k * 10 = 10 ^ (k + 1) := (pow_succ 10 k).symm
        _ ≤ n := h1
    have hhi : n / 10 < 10 ^ (k + 1) := by
      rw [Nat.div_lt_iff_lt_mul (by omega)]
      calc n < 10 ^ (k + 2) := h2
        _ = 10 ^ (k + 1) * 10 := pow_succ 10 (k + 1)
    rw [ih (n / 10) hlo hhi]
    have : n / 10 / 10 ^ k = n / 10 ^ (k + 1) := by
      rw [Nat.div_div_eq_div_mul]
      congr 1
      rw [pow_succ]
      ring
    rw [this]
    rfl

theorem digitChar_ne_zero {d : Nat} (h1 : 1 ≤ d) (h9 : d ≤ 9) : digitChar d ≠ '0' := by
  interval_cases d <;> decide

theorem genOtp_props {r : Nat} (hlo : 100000 ≤ r) (hhi : r < 999999) :
    (genOtp r).data.length = 6 ∧
    (genOtp r).data.head? = some (digitChar (r / 100000)) ∧
    digitChar (r / 100000) ≠ '0' := by
  have h5 : (10:Nat) ^ 5 = 100000 := by norm_num
  have h6 : (10:Nat) ^ 6 = 1000000 := by norm_num
  have hl : 10 ^ 5 ≤ r := by omega
  have hh : r < 10 ^ 6 := by omega
  refine ⟨?_, ?_, ?_⟩
  · exact natToDecimal_length 5 r hl hh
  · have := natToDecimal_head 5 r hl hh
    rwa [h5] at this
  · apply digitChar_ne_zero
    · rw [Nat.le_div_iff_mul_le (by omega)]; omega
    · have : r / 100000 < 10 := by rw [Nat.div_lt_iff_lt_mul (by omega)]; omega
      omega


theorem foldl_newerRecord_lt {m : Nat} :
    ∀ (l : List OtpRecord) (acc : OtpRecord), acc.createdAt < m →
      (∀ r ∈ l, r.createdAt < m) → (l.foldl newerRecord acc).createdAt < m := by
  intro l
  induction l with
  | nil => intro acc hacc _; exact hacc
  | cons a t ih =>
    intro acc hacc hl
    rw [List.foldl_cons]
    apply ih
    · unfold newerRecord
      split
      · exact hl a (List.mem_cons_self a t)
      · exact hacc
    · intro r hr; exact hl r (List.mem_cons_of_mem a hr)

theorem latestOtpRecord_single {rec : OtpRecord} {c : String} (h : rec.contact = c) :
    latestOtpRecord [rec] c = some rec := by
  simp [latestOtpRecord, h]

theorem latestOtpRecord_none {recs : List OtpRecord} {c : String}
    (h : ∀ r ∈ recs, r.contact ≠ c) : latestOtpRecord recs c = none := by
  unfold latestOtpRecord
  have : recs.filter (fun r => r.contact == c) = [] := by
    rw [List.filter_eq_nil_iff]
    intro r hr
    simpa using h r hr
  rw [this]

theorem latestOtpRecord_append_newest {recs : List OtpRecord} {c : String} {newRec : OtpRecord}
    (hnew : newRec.contact = c)
    (hlt : ∀ r ∈ recs, r.contact = c → r.createdAt < newRec.createdAt) :
    latestOtpRecord (recs ++ [newRec]) c = some newRec := by
  unfold latestOtpRecord
  rw [List.filter_append]
  have hfe : [newRec].filter (fun r => r.contact == c) = [newRec] := by simp [hnew]
  rw [hfe]
  cases hf : recs.filter (fun r => r.contact == c) with
  | nil => simp
  | cons r rs =>
    have hmem : ∀ x ∈ r :: rs, x.createdAt < newRec.createdAt := by
      intro x hx
      have hx' : x ∈ recs.filter (fun r => r.contact == c) := by rw [hf]; exact hx
      rw [List.mem_filter] at hx'
      exact hlt x hx'.1 (by simpa using hx'.2)
    simp only [List.cons_append, Option.some.injEq]
    rw [List.foldl_append]
    have hacc : (rs.foldl newerRecord r).createdAt < newRec.createdAt :=
      foldl_newerRecord_lt rs r (hmem r (List.mem_cons_self r rs))
        (fun x hx => hmem x (List.mem_cons_of_mem r hx))
    show newerRecord (rs.foldl newerRecord r) newRec = newRec
    rw [newerRecord, if_pos hacc]

theorem verifyOtp_notFound {st : Store} {c otp : String} {now : Nat}
    (h : ∀ r ∈ st.otpRecords, r.contact ≠ c) :
    verifyOtp st c otp now = (.notFound, st) := by
  unfold verifyOtp
  rw [latestOtpRecord_none h]

theorem verifyOtp_expired {st : Store} {c otp : String} {now : Nat} {rec : OtpRecord}
    (h : latestOtpRecord st.otpRecords c = some rec)
    (hcons : rec.consumed = false) (hexp : now > rec.expiresAt) :
    verifyOtp st c otp now = (.expired, st) := by
  unfold verifyOtp
  rw [h]
  simp [hcons, hexp]

theorem verifyOtp_single_consumed {rec : OtpRecord} {cand : String} {now : Nat}
    (h : rec.consumed = true) :
    verifyOtp (singleStore rec) rec.contact cand now = (.alreadyUsed, singleStore rec) := by
  unfold verifyOtp singleStore
  rw [show (Store.mk [rec] []).otpRecords = [rec] from rfl, latestOtpRecord_single rfl]
  simp [h]

theorem verifyOtp_single_capped {rec : OtpRecord} {cand : String} {now : Nat}
    (hcons : rec.consumed = false) (hexp : ¬ now > rec.expiresAt)
    (hatt : rec.attempts ≥ MAX_OTP_ATTEMPTS) :
    verifyOtp (singleStore rec) rec.contact cand now = (.tooManyAttempts, singleStore rec) := by
  unfold verifyOtp singleStore
  rw [show (Store.mk [rec] []).otpRecords = [rec] from rfl, latestOtpRecord_single rfl]
  simp [hcons, hexp, hatt]

theorem verifyOtp_single_wrong {rec : OtpRecord} {w : String} {now : Nat}
    (hcons : rec.consumed = false) (hexp : ¬ now > rec.expiresAt)
    (hatt : rec.attempts < MAX_OTP_ATTEMPTS)
    (hw : hashOtp (jsTrim w) rec.salt ≠ rec.otpHash) :
    verifyOtp (singleStore rec) rec.contact w now =
      (.invalidOtp (MAX_OTP_ATTEMPTS - (rec.attempts + 1)),
       singleStore { rec with attempts := rec.attempts + 1 }) := by
  unfold verifyOtp singleStore
  rw [show (Store.mk [rec] []).otpRecords = [rec] from rfl, latestOtpRecord_single rfl]
  simp [hcons, hexp, Nat.not_le.mpr hatt, hw]

theorem verifyOtp_single_correct {rec : OtpRecord} {cand : String} {now : Nat}
    (hcons : rec.consumed = false) (hexp : ¬ now > rec.expiresAt)
    (hatt : rec.attempts < MAX_OTP_ATTEMPTS)
    (hc : hashOtp (jsTrim cand) rec.salt = rec.otpHash) :
    verifyOtp (singleStore rec) rec.contact cand now =
      (.success, singleStore { rec with consumed := true }) := by
  unfold verifyOtp singleStore
  rw [show (Store.mk [rec] []).otpRecords = [rec] from rfl, latestOtpRecord_single rfl]
  simp [hcons, hexp, Nat.not_le.mpr hatt, hc]

theorem verifyStateN_single (id : Nat) (c h s : String) (t0 te : Nat) (now : Nat) (w : String)
    (hexp : ¬ now > te) (hw : hashOtp (jsTrim w) s ≠ h) :
    ∀ (k j : Nat), j ≤ MAX_OTP_ATTEMPTS →
      verifyStateN c w now k (singleStore ⟨id, c, h, s, t0, te, false, j⟩) =
        singleStore ⟨id, c, h, s, t0, te, false, min (j + k) MAX_OTP_ATTEMPTS⟩ := by
  intro k
  induction k with
  | zero =>
    intro j hj
    rw [verifyStateN]
    rw [Nat.add_zero, Nat.min_eq_left hj]
  | succ k ih =>
    intro j hj
    rw [verifyStateN]
    by_cases hlt : j < MAX_OTP_ATTEMPTS
    · have hstep := @verifyOtp_single_wrong ⟨id, c, h, s, t0, te, false, j⟩ w now
        rfl hexp hlt hw
      rw [hstep]
      have := ih (j + 1) hlt
      rw [this]
      have harith : min (j + 1 + k) MAX_OTP_ATTEMPTS = min (j + (k + 1)) MAX_OTP_ATTEMPTS := by
        omega
      rw [harith]
    · have hj5 : j = MAX_OTP_ATTEMPTS := by omega
      have hstep := @verifyOtp_single_capped ⟨id, c, h, s, t0, te, false, j⟩ w now
        rfl hexp (by simpa using Nat.le_of_eq hj5.symm)
      rw [hstep]
      have := ih j hj
      rw [this]
      have harith : min (j + k) MAX_OTP_ATTEMPTS = min (j + (k + 1)) MAX_OTP_ATTEMPTS := by
        omega
      rw [harith]

theorem verifyOtp_cases (st : Store) (c otp : String) (now : Nat) :
    (∃ rec, latestOtpRecord st.otpRecords c = some rec ∧ rec.consumed = false ∧
       ¬ now > rec.expiresAt ∧ rec.attempts < MAX_OTP_ATTEMPTS ∧
       hashOtp (jsTrim otp) rec.salt ≠ rec.otpHash ∧
       verifyOtp st c otp now = (.invalidOtp (MAX_OTP_ATTEMPTS - (rec.attempts + 1)),
         { st with otpRecords := st.otpRecords.map (fun r =>
             if r.id = rec.id then { r with attempts := rec.attempts + 1 } else r) })) ∨
    (∃ rec, latestOtpRecord st.otpRecords c = some rec ∧ rec.consumed = false ∧
       ¬ now > rec.expiresAt ∧ rec.attempts < MAX_OTP_ATTEMPTS ∧
       hashOtp (jsTrim otp) rec.salt = rec.otpHash ∧
       verifyOtp st c otp now = (.success,
         { st with otpRecords := st.otpRecords.map (fun r =>
             if r.id = rec.id then { r with consumed := true } else r) })) ∨
    ((verifyOtp st c otp now).2 = st ∧ (verifyOtp st c otp now).1 ≠ .success) := by
  cases hl : latestOtpRecord st.otpRecords c with
  | none =>
    have hv : verifyOtp st c otp now = (.notFound, st) := by
      unfold verifyOtp; rw [hl]
    exact Or.inr (Or.inr (by rw [hv]; exact ⟨rfl, by simp⟩))
  | some rec =>
    by_cases h1 : rec.consumed = true
    · have hv : verifyOtp st c otp now = (.alreadyUsed, st) := by
        unfold verifyOtp; rw [hl]; dsimp only; rw [if_pos h1]
      exact Or.inr (Or.inr (by rw [hv]; exact ⟨rfl, by simp⟩))
    · by_cases h2 : now > rec.expiresAt
      · have hv : verifyOtp st c otp now = (.expired, st) := by
          unfold verifyOtp; rw [hl]; dsimp only; rw [if_neg h1, if_pos h2]
        exact Or.inr (Or.inr (by rw [hv]; exact ⟨rfl, by simp⟩))
      · by_cases h3 : rec.attempts ≥ MAX_OTP_ATTEMPTS
        · have hv : verifyOtp st c otp now = (.tooManyAttempts, st) := by
            unfold verifyOtp; rw [hl]; dsimp only; rw [if_neg h1, if_neg h2, if_pos h3]
          exact Or.inr (Or.inr (by rw [hv]; exact ⟨rfl, by simp⟩))
        · by_cases h4 : hashOtp (jsTrim otp) rec.salt ≠ rec.otpHash
          · have hv : verifyOtp st c otp now =
                (.invalidOtp (MAX_OTP_ATTEMPTS - (rec.attempts + 1)),
                 { st with otpRecords := st.otpRecords.map (fun r =>
                     if r.id = rec.id then { r with attempts := rec.attempts + 1 } else r) }) := by
              unfold verifyOtp; rw [hl]; dsimp only; rw [if_neg h1, if_neg h2, if_neg h3, if_pos h4]
            exact Or.inl ⟨rec, rfl, Bool.not_eq_true _ ▸ h1, h2, by omega, h4, hv⟩
          · have hv : verifyOtp st c otp now = (.success,
                { st with otpRecords := st.otpRecords.map (fun r =>
                    if r.id = rec.id then { r with consumed := true } else r) }) := by
              unfold verifyOtp; rw [hl]; dsimp only; rw [if_neg h1, if_neg h2, if_neg h3, if_neg h4]
            exact Or.inr (Or.inl ⟨rec, rfl, Bool.not_eq_true _ ▸ h1, h2, by omega,
              not_not.mp h4, hv⟩)

theorem verifyOtp_consumed_mono (st : Store) (c otp : String) (now : Nat) :
    ∀ r' ∈ (verifyOtp st c otp now).2.otpRecords, ∃ r ∈ st.otpRecords,
      r'.id = r.id ∧ (r.consumed = true → r'.consumed = true) := by
  intro r' hr'
  rcases verifyOtp_cases st c otp now with
    ⟨rec, _, _, _, _, _, hv⟩ | ⟨rec, _, _, _, _, _, hv⟩ | ⟨hv, _⟩
  · rw [hv] at hr'
    simp only [List.mem_map] at hr'
    obtain ⟨r, hr, hrr⟩ := hr'
    refine ⟨r, hr, ?_, ?_⟩
    · subst hrr; split <;> rfl
    · subst hrr; split <;> (intro hh; simpa using hh)
  · rw [hv] at hr'
    simp only [List.mem_map] at hr'
    obtain ⟨r, hr, hrr⟩ := hr'
    refine ⟨r, hr, ?_, ?_⟩
    · subst hrr; split <;> rfl
    · subst hrr
      split
      · intro hh; simp
      · intro hh; exact hh
  · rw [hv] at hr'
    exact ⟨r', hr', rfl, fun hh => hh⟩

theorem verifyOtp_success_conditions (st : Store) (c otp : String) (now : Nat)
    (h : (verifyOtp st c otp now).1 = .success) :
    ∃ rec, latestOtpRecord st.otpRecords c = some rec ∧ rec.consumed = false ∧
      ¬ now > rec.expiresAt ∧ rec.attempts < MAX_OTP_ATTEMPTS ∧
      hashOtp (jsTrim otp) rec.salt = rec.otpHash := by
  rcases verifyOtp_cases st c otp now with
    ⟨rec, _, _, _, _, _, hv⟩ | ⟨rec, hrec, hc1, hc2, hc3, hc4, hv⟩ | ⟨_, hne⟩
  · rw [hv] at h; cases h
  · exact ⟨rec, hrec, hc1, hc2, hc3, hc4⟩
  · exact absurd h hne

theorem verifyOtp_no_success_frame (st : Store) (c otp : String) (now : Nat)
    (h : (verifyOtp st c otp now).1 ≠ .success) :
    ∀ r' ∈ (verifyOtp st c otp now).2.otpRecords, ∃ r ∈ st.otpRecords,
      r'.id = r.id ∧ r'.consumed = r.consumed := by
  intro r' hr'
  rcases verifyOtp_cases st c otp now with
    ⟨rec, _, _, _, _, _, hv⟩ | ⟨rec, _, _, _, _, _, hv⟩ | ⟨hv, _⟩
  · rw [hv] at hr'
    simp only [List.mem_map] at hr'
    obtain ⟨r, hr, hrr⟩ := hr'
    refine ⟨r, hr, ?_, ?_⟩
    · subst hrr; split <;> rfl
    · subst hrr; split <;> rfl
  · rw [hv] at h; cases h rfl
  · rw [hv] at hr'
    exact ⟨r', hr', rfl, rfl⟩

theorem requestOtp_persist_fail (st : Store) (email : String) (now id : Nat)
    (code salt : String) (e : Bool) :
    requestOtp st email now id code salt false e =
      (.dbError,
       { st with otpRecords := st.otpRecords.filter (fun r =>
           !(r.contact == email && decide (r.expiresAt < now))) },
       []) := rfl

theorem requestOtp_email_fail (st : Store) (email : String) (now id : Nat)
    (code salt : String) :
    requestOtp st email now id code salt true false =
      (.emailError,
       { st with otpRecords := st.otpRecords.filter (fun r =>
           !(r.contact == email && decide (r.expiresAt < now)))
           ++ [freshOtpRecord email now id code salt] },
       []) := rfl

theorem requestOtp_ok (st : Store) (email : String) (now id : Nat)
    (code salt : String) :
    requestOtp st email now id code salt true true =
      (.success (OTP_TTL_MS / 1000),
       { st with otpRecords := st.otpRecords.filter (fun r =>
           !(r.contact == email && decide (r.expiresAt < now)))
           ++ [freshOtpRecord email now id code salt] },
       [⟨email, code⟩]) := rfl

theorem requestOtp_store_sub (st : Store) (email : String) (now id : Nat)
    (code salt : String) (p e : Bool) :
    ∀ r' ∈ ((requestOtp st email now id code salt p e).2.1).otpRecords,
      r' ∈ st.otpRecords ∨ r' = freshOtpRecord email now id code salt := by
  intro r' hr'
  cases p with
  | false =>
    rw [requestOtp_persist_fail] at hr'
    exact Or.inl (List.mem_of_mem_filter hr')
  | true =>
    cases e with
    | false =>
      rw [requestOtp_email_fail] at hr'
      rcases List.mem_append.mp hr' with hmem | hmem
      · exact Or.inl (List.mem_of_mem_filter hmem)
      · exact Or.inr (by simpa using hmem)
    | true =>
      rw [requestOtp_ok] at hr'
      rcases List.mem_append.mp hr' with hmem | hmem
      · exact Or.inl (List.mem_of_mem_filter hmem)
      · exact Or.inr (by simpa using hmem)

theorem verifyOtp_wrong {st : Store} {c otp : String} {now : Nat} {rec : OtpRecord}
    (hl : latestOtpRecord st.otpRecords c = some rec)
    (hcons : rec.consumed = false) (hexp : ¬ now > rec.expiresAt)
    (hatt : rec.attempts < MAX_OTP_ATTEMPTS)
    (hne : hashOtp (jsTrim otp) rec.salt ≠ rec.otpHash) :
    verifyOtp st c otp now =
      (.invalidOtp (MAX_OTP_ATTEMPTS - (rec.attempts + 1)),
       { st with otpRecords := st.otpRecords.map (fun r =>
           if r.id = rec.id then { r with attempts := rec.attempts + 1 } else r) }) := by
  unfold verifyOtp
  rw [hl]; dsimp only
  rw [if_neg (by simp [hcons]), if_neg hexp, if_neg (Nat.not_le.mpr hatt), if_pos hne]

theorem verifyOtp_correct {st : Store} {c otp : String} {now : Nat} {rec : OtpRecord}
    (hl : latestOtpRecord st.otpRecords c = some rec)
    (hcons : rec.consumed = false) (hexp : ¬ now > rec.expiresAt)
    (hatt : rec.attempts < MAX_OTP_ATTEMPTS)
    (heq : hashOtp (jsTrim otp) rec.salt = rec.otpHash) :
    verifyOtp st c otp now =
      (.success,
       { st with otpRecords := st.otpRecords.map (fun r =>
           if r.id = rec.id then { r with consumed := true } else r) }) := by
  unfold verifyOtp
  rw [hl]; dsimp only
  rw [if_neg (by simp [hcons]), if_neg hexp, if_neg (Nat.not_le.mpr hatt),
    if_neg (by simp [heq])]

theorem getEntry_setEntry (m : List (String × ClientOtpEntry)) (k : String)
    (v : ClientOtpEntry) : getEntry (setEntry m k v) k = some v := by
  induction m with
  | nil => simp [setEntry, getEntry]
  | cons p rest ih =>
    obtain ⟨k', v'⟩ := p
    by_cases h : (k' == k) = true
    · simp [setEntry, getEntry, h]
    · rw [setEntry, if_neg h, getEntry, if_neg h]
      exact ih

/-- C1 (counterexample): the claim that zero-padded codes such as "000123"
are possible outputs of genOtp is false: no integer in the range drawn by
crypto.randomInt(100000, 999999) renders as "000123". -/
theorem C1_counterexample :
    ¬ ∃ r : Nat, randomIntRange 100000 999999 r ∧ genOtp r = "000123" := by
  rintro ⟨r, ⟨hlo, hhi⟩, he⟩
  obtain ⟨_, hhead, hne⟩ := genOtp_props hlo hhi
  rw [he] at hhead
  have h0 : ("000123" : String).data.head? = some '0' := rfl
  rw [h0] at hhead
  exact hne (Option.some.inj hhead).symm

/-- C1 (amended): genOtp returns the plain decimal string of an integer
drawn uniformly from [100000, 999998] (crypto.randomInt's upper bound is
exclusive); every output is exactly 6 characters and starts with a
nonzero digit, so zero-padded codes such as "000123" are impossible and
999999 is never drawn. -/
theorem C1_theorem (r : Nat) (h : randomIntRange 100000 999999 r) :
    100000 ≤ r ∧ r ≤ 999998 ∧
    (genOtp r).data.length = 6 ∧
    (genOtp r).data.head? = some (digitChar (r / 100000)) ∧
    digitChar (r / 100000) ≠ '0' ∧
    genOtp r ≠ "000123" := by
  obtain ⟨hlo, hhi⟩ := h
  obtain ⟨hlen, hhead, hne⟩ := genOtp_props hlo hhi
  refine ⟨hlo, by omega, hlen, hhead, hne, ?_⟩
  intro he
  rw [he] at hhead
  have h0 : ("000123" : String).data.head? = some '0' := rfl
  rw [h0] at hhead
  exact hne (Option.some.inj hhead).symm

/-- C1 witness: the draw 123456 is in crypto.randomInt's range and its
rendering is not the zero-padded string. -/
theorem C1_witness : randomIntRange 100000 999999 123456 ∧ genOtp 123456 ≠ "000123" :=
  ⟨by decide, (C1_theorem 123456 (by decide)).2.2.2.2.2⟩

/-- C2 (counterexample): against a fresh record with attempt cap 5, the
5th consecutive wrong-code submission is answered invalid_otp with
attemptsRemaining 0, not too_many_attempts as the claim states. -/
theorem C2_counterexample :
    (verifyOtp (verifyStateN "a@b" "000000" 1 4
        (singleStore ⟨1, "a@b", hashOtp "123456" "s", "s", 0, 100, false, 0⟩))
      "a@b" "000000" 1).1 = VerifyResult.invalidOtp 0 ∧
    VerifyResult.invalidOtp 0 ≠ VerifyResult.tooManyAttempts :=
  ⟨by decide, by decide⟩

/-- C2 (amended): for a single freshly issued, unexpired, unconsumed
record with cap 5, every wrong-code call while attempts = j < 5
increments attempts to j+1 and fails invalid_otp with attemptsRemaining
5-(j+1); the 5th wrong submission therefore answers invalid_otp with 0
remaining, and from the 6th submission on every verify, even with the
correct code, fails too_many_attempts and leaves the record unchanged. -/
theorem C2_theorem (id : Nat) (c h s w : String) (t0 te now : Nat)
    (hexp : ¬ now > te) (hw : hashOtp (jsTrim w) s ≠ h) :
    (∀ j, j < MAX_OTP_ATTEMPTS →
      verifyOtp (singleStore ⟨id, c, h, s, t0, te, false, j⟩) c w now =
        (.invalidOtp (MAX_OTP_ATTEMPTS - (j + 1)),
         singleStore ⟨id, c, h, s, t0, te, false, j + 1⟩)) ∧
    (verifyOtp (verifyStateN c w now 4 (singleStore ⟨id, c, h, s, t0, te, false, 0⟩)) c w now
      = (.invalidOtp 0, singleStore ⟨id, c, h, s, t0, te, false, 5⟩)) ∧
    (∀ k cand, 5 ≤ k →
      verifyOtp (verifyStateN c w now k (singleStore ⟨id, c, h, s, t0, te, false, 0⟩)) c cand now
        = (.tooManyAttempts, singleStore ⟨id, c, h, s, t0, te, false, 5⟩)) := by
  refine ⟨?_, ?_, ?_⟩
  · intro j hj
    exact @verifyOtp_single_wrong ⟨id, c, h, s, t0, te, false, j⟩ w now rfl hexp hj hw
  · rw [verifyStateN_single id c h s t0 te now w hexp hw 4 0 (by decide)]
    have hm : min (0 + 4) MAX_OTP_ATTEMPTS = 4 := by decide
    rw [hm]
    have hstep := @verifyOtp_single_wrong ⟨id, c, h, s, t0, te, false, 4⟩ w now
      rfl hexp (show (4 : Nat) < MAX_OTP_ATTEMPTS by decide) hw
    rw [hstep]
    rfl
  · intro k cand hk
    rw [verifyStateN_single id c h s t0 te now w hexp hw k 0 (by decide)]
    have hm : min (0 + k) MAX_OTP_ATTEMPTS = 5 := by
      have : MAX_OTP_ATTEMPTS = 5 := rfl
      omega
    rw [hm]
    exact @verifyOtp_single_capped ⟨id, c, h, s, t0, te, false, 5⟩ cand now
      rfl hexp (show (5 : Nat) ≥ MAX_OTP_ATTEMPTS by decide)

/-- C2 witness: with the concrete record for a@b and wrong code 000000,
the 6th submission with the correct code fails too_many_attempts. -/
theorem C2_witness :
    (¬ (1 : Nat) > 100) ∧ hashOtp (jsTrim "000000") "s" ≠ hashOtp "123456" "s" ∧
    (verifyOtp (verifyStateN "a@b" "000000" 1 5
        (singleStore ⟨1, "a@b", hashOtp "123456" "s", "s", 0, 100, false, 0⟩))
      "a@b" "123456" 1
      = (.tooManyAttempts, singleStore ⟨1, "a@b", hashOtp "123456" "s", "s", 0, 100, false, 5⟩)) :=
  ⟨by decide, by decide,
    (C2_theorem 1 "a@b" (hashOtp "123456" "s") "s" "000000" 0 100 1
      (by decide) (by decide)).2.2 5 "123456" (by omega)⟩

/-- C5: whenever the newest record for the contact is unconsumed and its
expiresAt lies strictly in the past, verify fails expired and leaves the
store unchanged, for every candidate code and every attempts value (the
expiry check precedes the attempt-count check). -/
theorem C5_theorem (st : Store) (c cand : String) (now : Nat) (rec : OtpRecord)
    (hl : latestOtpRecord st.otpRecords c = some rec)
    (hcons : rec.consumed = false) (hexp : now > rec.expiresAt) :
    verifyOtp st c cand now = (.expired, st) :=
  verifyOtp_expired hl hcons hexp

/-- C5 witness: a record that is both expired and over the attempt cap
still answers expired, even for the correct code. -/
theorem C5_witness :
    latestOtpRecord [(⟨1, "a@b", hashOtp "123456" "s", "s", 0, 100, false, 7⟩ : OtpRecord)] "a@b"
      = some ⟨1, "a@b", hashOtp "123456" "s", "s", 0, 100, false, 7⟩ ∧
    (101 : Nat) > 100 ∧
    verifyOtp (singleStore ⟨1, "a@b", hashOtp "123456" "s", "s", 0, 100, false, 7⟩)
      "a@b" "123456" 101
      = (.expired, singleStore ⟨1, "a@b", hashOtp "123456" "s", "s", 0, 100, false, 7⟩) :=
  ⟨by decide, by decide,
    C5_theorem (singleStore ⟨1, "a@b", hashOtp "123456" "s", "s", 0, 100, false, 7⟩)
      "a@b" "123456" 101 ⟨1, "a@b", hashOtp "123456" "s", "s", 0, 100, false, 7⟩
      (by decide) rfl (by decide)⟩

/-- C8: evidence of the timer bug. Through enabled events only
(registration, the expiry tick that re-enables resend, then two resend
successes, the second possible because the finally-block of resendOTP
re-enables the button while the countdown runs), the page reaches a state
with two intervals scheduled at once: resendOTP starts a new timer
without clearing the previous handle, contradicting the claim that at
most one countdown timer is ever active. -/
theorem C8_bug :
    ∃ s, uiRunOk uiInit [UiEvent.registerSuccess, UiEvent.tickExpired,
        UiEvent.resendSuccess, UiEvent.resendSuccess] = some s ∧
      1 ∈ s.active ∧ 2 ∈ s.active ∧ s.active.length = 2 :=
  ⟨⟨[1, 2], some 2, true, false, 3, 2⟩, by decide, by decide, by decide, rfl⟩

/-- C3: single consumption. For any record that is unconsumed, unexpired
and under the cap, the first correct-code verify succeeds and sets
consumed to true, and the immediately following identical call fails
alreadyUsed; moreover, for arbitrary stores, a success implies the newest
record was unconsumed, unexpired, under the cap with matching hash, a
non-success never changes any consumed flag, no verify ever clears a
consumed flag, and request-otp only deletes rows or appends a fresh
unconsumed row (so no operation resets consumed to false). -/
theorem C3_theorem :
    (∀ (id : Nat) (c h s cand : String) (t0 te now j : Nat),
      j < MAX_OTP_ATTEMPTS → ¬ now > te → hashOtp (jsTrim cand) s = h →
      verifyOtp (singleStore ⟨id, c, h, s, t0, te, false, j⟩) c cand now
        = (.success, singleStore ⟨id, c, h, s, t0, te, true, j⟩) ∧
      verifyOtp (singleStore ⟨id, c, h, s, t0, te, true, j⟩) c cand now
        = (.alreadyUsed, singleStore ⟨id, c, h, s, t0, te, true, j⟩)) ∧
    (∀ (st : Store) (c otp : String) (now : Nat),
      (verifyOtp st c otp now).1 = .success →
      ∃ rec, latestOtpRecord st.otpRecords c = some rec ∧ rec.consumed = false ∧
        ¬ now > rec.expiresAt ∧ rec.attempts < MAX_OTP_ATTEMPTS ∧
        hashOtp (jsTrim otp) rec.salt = rec.otpHash) ∧
    (∀ (st : Store) (c otp : String) (now : Nat),
      ∀ r' ∈ (verifyOtp st c otp now).2.otpRecords,
        ∃ r ∈ st.otpRecords, r'.id = r.id ∧ (r.consumed = true → r'.consumed = true)) ∧
    (∀ (st : Store) (c otp : String) (now : Nat),
      (verifyOtp st c otp now).1 ≠ .success →
      ∀ r' ∈ (verifyOtp st c otp now).2.otpRecords,
        ∃ r ∈ st.otpRecords, r'.id = r.id ∧ r'.consumed = r.consumed) ∧
    (∀ (st : Store) (email : String) (now id : Nat) (code salt : String) (p e : Bool),
      ∀ r' ∈ ((requestOtp st email now id code salt p e).2.1).otpRecords,
        r' ∈ st.otpRecords ∨ r' = freshOtpRecord email now id code salt) := by
  refine ⟨?_, verifyOtp_success_conditions, verifyOtp_consumed_mono,
    verifyOtp_no_success_frame, requestOtp_store_sub⟩
  intro id c h s cand t0 te now j hj hexp hc
  exact ⟨@verifyOtp_single_correct ⟨id, c, h, s, t0, te, false, j⟩ cand now rfl hexp hj hc,
    @verifyOtp_single_consumed ⟨id, c, h, s, t0, te, true, j⟩ cand now rfl⟩

/-- C3 witness: the two-calls-once-success scenario at a concrete record. -/
theorem C3_witness :
    (0 : Nat) < MAX_OTP_ATTEMPTS ∧ (¬ (1 : Nat) > 100) ∧
    hashOtp (jsTrim "123456") "s" = hashOtp "123456" "s" ∧
    verifyOtp (singleStore ⟨1, "a@b", hashOtp "123456" "s", "s", 0, 100, false, 0⟩)
        "a@b" "123456" 1
      = (.success, singleStore ⟨1, "a@b", hashOtp "123456" "s", "s", 0, 100, true, 0⟩) ∧
    verifyOtp (singleStore ⟨1, "a@b", hashOtp "123456" "s", "s", 0, 100, true, 0⟩)
        "a@b" "123456" 1
      = (.alreadyUsed, singleStore ⟨1, "a@b", hashOtp "123456" "s", "s", 0, 100, true, 0⟩) :=
  ⟨by decide, by decide, by decide,
    (C3_theorem.1 1 "a@b" (hashOtp "123456" "s") "s" "123456" 0 100 1 0
      (by decide) (by decide) (by decide)).1,
    (C3_theorem.1 1 "a@b" (hashOtp "123456" "s") "s" "123456" 0 100 1 0
      (by decide) (by decide) (by decide)).2⟩

/-- C6: the request-otp handler persists before sending. If the insert
fails, the caller gets dbError, no email is delivered and no record with
the fresh id exists (every surviving row was already stored); if the
insert succeeds and the send fails, the caller gets emailError, no email
is delivered, yet the fresh unconsumed zero-attempt record stays
persisted; when both succeed the email is delivered. -/
theorem C6_theorem (st : Store) (email : String) (now id : Nat) (code salt : String)
    (hid : ∀ r ∈ st.otpRecords, r.id ≠ id) :
    (∀ e, (requestOtp st email now id code salt false e).1 = .dbError ∧
       (requestOtp st email now id code salt false e).2.2 = [] ∧
       (∀ r ∈ ((requestOtp st email now id code salt false e).2.1).otpRecords,
          r ∈ st.otpRecords ∧ r.id ≠ id)) ∧
    ((requestOtp st email now id code salt true false).1 = .emailError ∧
     (requestOtp st email now id code salt true false).2.2 = [] ∧
     freshOtpRecord email now id code salt
       ∈ ((requestOtp st email now id code salt true false).2.1).otpRecords ∧
     (freshOtpRecord email now id code salt).consumed = false ∧
     (freshOtpRecord email now id code salt).attempts = 0) ∧
    ((requestOtp st email now id code salt true true).1 = .success (OTP_TTL_MS / 1000) ∧
     (requestOtp st email now id code salt true true).2.2 = [⟨email, code⟩]) := by
  refine ⟨?_, ⟨rfl, rfl, ?_, rfl, rfl⟩, rfl, rfl⟩
  · intro e
    refine ⟨rfl, rfl, ?_⟩
    intro r hr
    rw [requestOtp_persist_fail] at hr
    have hr' : r ∈ st.otpRecords := List.mem_of_mem_filter hr
    exact ⟨hr', hid r hr'⟩
  · rw [requestOtp_email_fail]
    exact List.mem_append_right _ (List.mem_singleton_self _)

/-- C6 witness: a concrete store with an unrelated record; the email-fail
path keeps the fresh record while delivering nothing. -/
theorem C6_witness :
    (∀ r ∈ (Store.mk [⟨99, "z@z", hashOtp "1" "t", "t", 0, 50, true, 3⟩] []).otpRecords,
      r.id ≠ 7) ∧
    (requestOtp (Store.mk [⟨99, "z@z", hashOtp "1" "t", "t", 0, 50, true, 3⟩] [])
        "a@b" 10 7 "123456" "s" true false).2.2 = [] ∧
    freshOtpRecord "a@b" 10 7 "123456" "s"
      ∈ ((requestOtp (Store.mk [⟨99, "z@z", hashOtp "1" "t", "t", 0, 50, true, 3⟩] [])
          "a@b" 10 7 "123456" "s" true false).2.1).otpRecords :=
  ⟨by decide,
    (C6_theorem (Store.mk [⟨99, "z@z", hashOtp "1" "t", "t", 0, 50, true, 3⟩] [])
      "a@b" 10 7 "123456" "s" (by decide)).2.1.2.1,
    (C6_theorem (Store.mk [⟨99, "z@z", hashOtp "1" "t", "t", 0, 50, true, 3⟩] [])
      "a@b" 10 7 "123456" "s" (by decide)).2.1.2.2.1⟩

/-- C7 (counterexample): resendOTP does not leave the old record in place
to be shadowed by a newer one: after a resend for a@b, the storage holds
exactly the single overwritten entry (new code, attempts reset to 0) and
no entry with the old code survives, refuting the claim that the old
record's attempts merely "become moot" under a newest-record-wins rule
rather than being reset in place. -/
theorem C7_counterexample :
    (resendOTP [("a@b", ⟨"111111", [], 100, 2⟩)] "a@b" "222222" 50).2.1
      = [("a@b", ⟨"222222", [], 50 + CLIENT_OTP_EXPIRY_MS, 0⟩)] ∧
    ¬ ∃ p ∈ (resendOTP [("a@b", ⟨"111111", [], 100, 2⟩)] "a@b" "222222" 50).2.1,
        p.2.otp = "111111" :=
  ⟨by decide, by decide⟩

/-- C7 (amended): resendOTP fails noPendingRegistration when no entry
exists for the email; otherwise it overwrites the stored entry in place
with the fresh code, fresh expiry and attempts reset to 0, sends the new
code, and its store-and-email effect coincides with sendRegistrationOTP
run with the stored profile data (issue reusing the pending context). -/
theorem C7_theorem (m : List (String × ClientOtpEntry)) (email newOtp : String) (now : Nat) :
    (getEntry m email = none →
      resendOTP m email newOtp now = (.noPendingRegistration, m, [])) ∧
    (∀ e, getEntry m email = some e →
      resendOTP m email newOtp now =
        (.resent (now + CLIENT_OTP_EXPIRY_MS),
         setEntry m email ⟨newOtp, e.userData, now + CLIENT_OTP_EXPIRY_MS, 0⟩,
         [⟨email, newOtp⟩]) ∧
      (resendOTP m email newOtp now).2
        = sendRegistrationOTP m email e.userData newOtp now ∧
      getEntry ((resendOTP m email newOtp now).2.1) email
        = some ⟨newOtp, e.userData, now + CLIENT_OTP_EXPIRY_MS, 0⟩) := by
  constructor
  · intro h
    unfold resendOTP
    rw [h]
  · intro e he
    have hv : resendOTP m email newOtp now =
        (.resent (now + CLIENT_OTP_EXPIRY_MS),
         setEntry m email ⟨newOtp, e.userData, now + CLIENT_OTP_EXPIRY_MS, 0⟩,
         [⟨email, newOtp⟩]) := by
      unfold resendOTP
      rw [he]
    refine ⟨hv, by rw [hv]; rfl, ?_⟩
    rw [hv]
    exact getEntry_setEntry m email _

/-- C7 witness: resending for a pending registration overwrites that
entry with attempts 0 and the new code. -/
theorem C7_witness :
    getEntry [("a@b", ⟨"111111", [], 100, 2⟩)] "a@b" = some ⟨"111111", [], 100, 2⟩ ∧
    getEntry ((resendOTP [("a@b", ⟨"111111", [], 100, 2⟩)] "a@b" "222222" 50).2.1) "a@b"
      = some ⟨"222222", [], 50 + CLIENT_OTP_EXPIRY_MS, 0⟩ :=
  ⟨by decide,
    ((C7_theorem [("a@b", ⟨"111111", [], 100, 2⟩)] "a@b" "222222" 50).2
      ⟨"111111", [], 100, 2⟩ (by decide)).2.2⟩

/-- C9: signup never consults OTP state: with a fresh email it creates
and persists the user (email lowercased, name and phone trimmed), leaves
otp_records untouched, and its outcome is identical whatever the
otp_records component holds — including no record at all for the email,
or only unconsumed ones. -/
theorem C9_theorem (st : Store) (email name phone : String) (age : Nat)
    (hfresh : ∀ u ∈ st.users, u.email ≠ email) :
    (signupUser st email name phone age).1
        = .created ⟨email.toLower, jsTrim name, jsTrim phone, age⟩ ∧
    (⟨email.toLower, jsTrim name, jsTrim phone, age⟩ : UserAccount)
        ∈ (signupUser st email name phone age).2.users ∧
    (signupUser st email name phone age).2.otpRecords = st.otpRecords ∧
    (∀ recs : List OtpRecord,
      signupUser ⟨recs, st.users⟩ email name phone age
        = ((signupUser st email name phone age).1,
           ⟨recs, (signupUser st email name phone age).2.users⟩)) := by
  have hnone : st.users.find? (fun u => u.email == email) = none := by
    rw [List.find?_eq_none]
    intro u hu
    simpa using hfresh u hu
  have hv : signupUser st email name phone age =
      (.created ⟨email.toLower, jsTrim name, jsTrim phone, age⟩,
       { st with users := st.users ++ [⟨email.toLower, jsTrim name, jsTrim phone, age⟩] }) := by
    unfold signupUser
    rw [hnone]
  refine ⟨by rw [hv], ?_, by rw [hv], ?_⟩
  · rw [hv]
    exact List.mem_append_right _ (List.mem_singleton_self _)
  · intro recs
    have hv2 : signupUser ⟨recs, st.users⟩ email name phone age =
        (.created ⟨email.toLower, jsTrim name, jsTrim phone, age⟩,
         (⟨recs, st.users ++ [⟨email.toLower, jsTrim name, jsTrim phone, age⟩]⟩ : Store)) := by
      unfold signupUser
      dsimp only
      rw [hnone]
    rw [hv2, hv]

/-- C9 witness: a store whose only user has another email and whose OTP
table is empty (no record for the email was ever issued or consumed);
signup still creates the account. -/
theorem C9_witness :
    (∀ u ∈ (Store.mk [] [⟨"other@x", "O", "1", 30⟩]).users, u.email ≠ "New@x") ∧
    (signupUser (Store.mk [] [⟨"other@x", "O", "1", 30⟩]) "New@x" " Ana " "22" 30).1
      = .created ⟨"New@x".toLower, jsTrim " Ana ", jsTrim "22", 30⟩ :=
  ⟨by decide,
    (C9_theorem (Store.mk [] [⟨"other@x", "O", "1", 30⟩]) "New@x" " Ana " "22" 30
      (by decide)).1⟩

/-- C4: newest record wins. Issue a first code, then a second one for the
same contact later; verify consults only the newest record, so the first
(older) code now fails invalid_otp while the second (latest) code, even
after that failed attempt, succeeds; and with no record at all for a
contact, verify fails notFound. -/
theorem C4_theorem (st : Store) (c code1 salt1 code2 salt2 : String)
    (t1 t2 t3 id1 id2 : Nat)
    (hstale : ∀ r ∈ st.otpRecords, r.contact = c → r.createdAt < t1)
    (hid2 : ∀ r ∈ st.otpRecords, r.id ≠ id2)
    (hid12 : id1 ≠ id2)
    (ht12 : t1 < t2)
    (ht3 : ¬ t3 > t2 + OTP_TTL_MS)
    (hw : jsTrim code1 ≠ code2)
    (hc : jsTrim code2 = code2) :
    (verifyOtp ((requestOtp ((requestOtp st c t1 id1 code1 salt1 true true).2.1)
        c t2 id2 code2 salt2 true true).2.1) c code1 t3).1
      = .invalidOtp (MAX_OTP_ATTEMPTS - 1) ∧
    (verifyOtp (verifyOtp ((requestOtp ((requestOtp st c t1 id1 code1 salt1 true true).2.1)
        c t2 id2 code2 salt2 true true).2.1) c code1 t3).2 c code2 t3).1
      = .success ∧
    (∀ (st' : Store) (c' otp' : String) (now' : Nat),
      (∀ r ∈ st'.otpRecords, r.contact ≠ c') →
      verifyOtp st' c' otp' now' = (.notFound, st')) := by
  have h1 : (requestOtp st c t1 id1 code1 salt1 true true).2.1
      = Store.mk
          (st.otpRecords.filter (fun r => !(r.contact == c && decide (r.expiresAt < t1)))
            ++ [freshOtpRecord c t1 id1 code1 salt1])
          st.users := by
    rw [requestOtp_ok]
  set L1 : List OtpRecord :=
    st.otpRecords.filter (fun r => !(r.contact == c && decide (r.expiresAt < t1)))
      ++ [freshOtpRecord c t1 id1 code1 salt1] with hL1
  have h2 : (requestOtp (Store.mk L1 st.users) c t2 id2 code2 salt2 true true).2.1
      = Store.mk
          (L1.filter (fun r => !(r.contact == c && decide (r.expiresAt < t2)))
            ++ [freshOtpRecord c t2 id2 code2 salt2])
          st.users := by
    rw [requestOtp_ok]
  set L2 : List OtpRecord :=
    L1.filter (fun r => !(r.contact == c && decide (r.expiresAt < t2))) with hL2
  -- every filtered row for the contact is older than the second issuance,
  -- and none of them carries the second record's id
  have hmemL2 : ∀ r ∈ L2, r ∈ st.otpRecords ∨ r = freshOtpRecord c t1 id1 code1 salt1 := by
    intro r hr
    have hr1 : r ∈ L1 := List.mem_of_mem_filter hr
    rw [hL1] at hr1
    rcases List.mem_append.mp hr1 with hmem | hmem
    · exact Or.inl (List.mem_of_mem_filter hmem)
    · exact Or.inr (by simpa using hmem)
  have hlt2 : ∀ r ∈ L2, r.contact = c →
      r.createdAt < (freshOtpRecord c t2 id2 code2 salt2).createdAt := by
    intro r hr hrc
    rcases hmemL2 r hr with hmem | hmem
    · exact lt_trans (hstale r hmem hrc) ht12
    · rw [hmem]; exact ht12
  have hidL2 : ∀ r ∈ L2, r.id ≠ id2 := by
    intro r hr
    rcases hmemL2 r hr with hmem | hmem
    · exact hid2 r hmem
    · rw [hmem]; exact hid12
  have hlatest2 : latestOtpRecord (L2 ++ [freshOtpRecord c t2 id2 code2 salt2]) c
      = some (freshOtpRecord c t2 id2 code2 salt2) :=
    latestOtpRecord_append_newest rfl hlt2
  have hne1 : hashOtp (jsTrim code1) (freshOtpRecord c t2 id2 code2 salt2).salt
      ≠ (freshOtpRecord c t2 id2 code2 salt2).otpHash :=
    fun heq => hw (hashOtp_inj heq)
  have hv1 := @verifyOtp_wrong
    (Store.mk (L2 ++ [freshOtpRecord c t2 id2 code2 salt2]) st.users)
    c code1 t3 (freshOtpRecord c t2 id2 code2 salt2)
    hlatest2 rfl ht3 (show (0 : Nat) < MAX_OTP_ATTEMPTS by decide) hne1
  refine ⟨?_, ?_, fun st' c' otp' now' h => verifyOtp_notFound h⟩
  · rw [h1, h2, hv1]
    rfl
  · rw [h1, h2, hv1]
    -- the attempts bump touches only the newest record: all other rows
    -- carry a different id
    have hmap : (L2 ++ [freshOtpRecord c t2 id2 code2 salt2]).map
        (fun r => if r.id = (freshOtpRecord c t2 id2 code2 salt2).id then
            { r with attempts := (freshOtpRecord c t2 id2 code2 salt2).attempts + 1 }
          else r)
        = L2 ++ [{ freshOtpRecord c t2 id2 code2 salt2 with attempts := 1 }] := by
      rw [List.map_append]
      congr 1
      · have hpt : ∀ r ∈ L2,
            (fun r => if r.id = (freshOtpRecord c t2 id2 code2 salt2).id then
                { r with attempts := (freshOtpRecord c t2 id2 code2 salt2).attempts + 1 }
              else r) r = id r :=
          fun r hr => if_neg (hidL2 r hr)
        rw [List.map_congr_left hpt, List.map_id]
      · rw [List.map_cons, List.map_nil,
          if_pos (rfl : (freshOtpRecord c t2 id2 code2 salt2).id
            = (freshOtpRecord c t2 id2 code2 salt2).id)]
        rfl
    have hlt2' : ∀ r ∈ L2, r.contact = c →
        r.createdAt < ({ freshOtpRecord c t2 id2 code2 salt2 with attempts := 1 }
          : OtpRecord).createdAt := hlt2
    have hlatest3 : latestOtpRecord
        ((L2 ++ [freshOtpRecord c t2 id2 code2 salt2]).map
          (fun r => if r.id = (freshOtpRecord c t2 id2 code2 salt2).id then
              { r with attempts := (freshOtpRecord c t2 id2 code2 salt2).attempts + 1 }
            else r)) c
        = some { freshOtpRecord c t2 id2 code2 salt2 with attempts := 1 } := by
      rw [hmap]
      exact latestOtpRecord_append_newest rfl hlt2'
    have heq2 : hashOtp (jsTrim code2)
        ({ freshOtpRecord c t2 id2 code2 salt2 with attempts := 1 } : OtpRecord).salt
        = ({ freshOtpRecord c t2 id2 code2 salt2 with attempts := 1 } : OtpRecord).otpHash := by
      show hashOtp (jsTrim code2) salt2 = hashOtp code2 salt2
      rw [hc]
    have hv2 := @verifyOtp_correct
      (Store.mk
        ((L2 ++ [freshOtpRecord c t2 id2 code2 salt2]).map
          (fun r => if r.id = (freshOtpRecord c t2 id2 code2 salt2).id then
              { r with attempts := (freshOtpRecord c t2 id2 code2 salt2).attempts + 1 }
            else r))
        st.users)
      c code2 t3 { freshOtpRecord c t2 id2 code2 salt2 with attempts := 1 }
      hlatest3 rfl ht3 (show (1 : Nat) < MAX_OTP_ATTEMPTS by decide) heq2
    rw [show ((VerifyResult.invalidOtp
          (MAX_OTP_ATTEMPTS - ((freshOtpRecord c t2 id2 code2 salt2).attempts + 1)),
        { Store.mk (L2 ++ [freshOtpRecord c t2 id2 code2 salt2]) st.users with
          otpRecords := (Store.mk (L2 ++ [freshOtpRecord c t2 id2 code2 salt2])
              st.users).otpRecords.map
            (fun r => if r.id = (freshOtpRecord c t2 id2 code2 salt2).id then
                { r with attempts := (freshOtpRecord c t2 id2 code2 salt2).attempts + 1 }
              else r) }) : VerifyResult × Store).2
        = Store.mk
            ((L2 ++ [freshOtpRecord c t2 id2 code2 salt2]).map
              (fun r => if r.id = (freshOtpRecord c t2 id2 code2 salt2).id then
                  { r with attempts := (freshOtpRecord c t2 id2 code2 salt2).attempts + 1 }
                else r))
            st.users from rfl]
    rw [hv2]

/-- C4 witness: two issuances for a@b; the first code then fails while
the second still succeeds after that failed attempt. -/
theorem C4_witness :
    jsTrim "111111" ≠ "222222" ∧
    (verifyOtp ((requestOtp ((requestOtp (Store.mk [] []) "a@b" 0 1 "111111" "s1"
        true true).2.1) "a@b" 1 2 "222222" "s2" true true).2.1) "a@b" "111111" 2).1
      = .invalidOtp (MAX_OTP_ATTEMPTS - 1) ∧
    (verifyOtp (verifyOtp ((requestOtp ((requestOtp (Store.mk [] []) "a@b" 0 1 "111111" "s1"
        true true).2.1) "a@b" 1 2 "222222" "s2" true true).2.1) "a@b" "111111" 2).2
      "a@b" "222222" 2).1 = .success :=
  ⟨by decide,
    (C4_theorem (Store.mk [] []) "a@b" "111111" "s1" "222222" "s2" 0 1 2 1 2
      (by decide) (by decide) (by decide) (by decide) (by decide)
      (by decide) (by decide)).1,
    (C4_theorem (Store.mk [] []) "a@b" "111111" "s1" "222222" "s2" 0 1 2 1 2
      (by decide) (by decide) (by decide) (by decide) (by decide)
      (by decide) (by decide)).2.1⟩

theorem jsTrimList_eq_self (l : List Char) (h : ∀ c ∈ l, isJsWhitespace c = false) :
    jsTrimList l = l := by
  unfold jsTrimList
  have h1 : l.dropWhile isJsWhitespace = l :=
    dropWhile_head_not _ _ (fun c hc => h c (List.mem_of_mem_head? (Option.mem_def.mpr hc)))
  rw [h1]
  have h2 : l.reverse.dropWhile isJsWhitespace = l.reverse :=
    dropWhile_head_not _ _ (fun c hc =>
      h c (List.mem_reverse.mp (List.mem_of_mem_head? (Option.mem_def.mpr hc))))
  rw [h2, List.reverse_reverse]

theorem not_ws_of_allowed (c : Char)
    (h : c.isDigit = true ∨ c = '+' ∨ c = '-' ∨ c = '.') :
    isJsWhitespace c = false := by
  rcases h with hd | rfl | rfl | rfl
  · cases hw : isJsWhitespace c with
    | false => rfl
    | true =>
      exfalso
      simp only [isJsWhitespace, Bool.or_eq_true, beq_iff_eq] at hw
      rcases hw with ((((rfl | rfl) | rfl) | rfl) | rfl) | rfl <;> exact absurd hd (by decide)
  · decide
  · decide
  · decide

theorem jsIsNumericBody_chars (l : List Char) (h : jsIsNumericBody l = true) :
    ∀ c ∈ l, c.isDigit = true ∨ c = '.' := by
  have hsplit : l.takeWhile Char.isDigit ++ l.dropWhile Char.isDigit = l :=
    List.takeWhile_append_dropWhile Char.isDigit l
  unfold jsIsNumericBody at h
  cases hr : l.dropWhile Char.isDigit with
  | nil =>
    intro c hc
    exact Or.inl (List.dropWhile_eq_nil_iff.mp hr c hc)
  | cons d tail =>
    rw [hr] at h
    simp only [Bool.and_eq_true, beq_iff_eq] at h
    obtain ⟨⟨hd, _⟩, htail⟩ := h
    subst hd
    have hl : l = l.takeWhile Char.isDigit ++ '.' :: tail := by
      rw [← hr, hsplit]
    intro c hc
    rw [hl] at hc
    rcases List.mem_append.mp hc with hm | hm
    · exact Or.inl (List.mem_takeWhile_imp hm)
    · rcases List.mem_cons.mp hm with rfl | hm2
      · exact Or.inr rfl
      · exact Or.inl (List.all_eq_true.mp htail c hm2)

theorem jsIsNumeric_chars (s : String) (h : jsIsNumeric s = true) :
    ∀ c ∈ s.data, c.isDigit = true ∨ c = '+' ∨ c = '-' ∨ c = '.' := by
  unfold jsIsNumeric at h
  cases hs : s.data with
  | nil => intro c hc; simp at hc
  | cons c0 rest =>
    rw [hs] at h
    dsimp only at h
    intro c hc
    by_cases h0 : (c0 == '+' || c0 == '-') = true
    · rw [if_pos h0] at h
      rcases List.mem_cons.mp hc with rfl | hm
      · simp only [Bool.or_eq_true, beq_iff_eq] at h0
        rcases h0 with rfl | rfl
        · exact Or.inr (Or.inl rfl)
        · exact Or.inr (Or.inr (Or.inl rfl))
      · rcases jsIsNumericBody_chars rest h c hm with hd | hdot
        · exact Or.inl hd
        · exact Or.inr (Or.inr (Or.inr hdot))
    · rw [if_neg h0] at h
      rcases jsIsNumericBody_chars (c0 :: rest) h c hc with hd | hdot
      · exact Or.inl hd
      · exact Or.inr (Or.inr (Or.inr hdot))

theorem validOtp_trim_self (otp : String) (h : validOtpField otp = true) :
    jsTrim otp = otp := by
  have hn : jsIsNumeric otp = true := by
    unfold validOtpField at h
    exact (by simpa using h : otp.length = 6 ∧ jsIsNumeric otp = true).2
  have hws : ∀ c ∈ otp.data, isJsWhitespace c = false :=
    fun c hc => not_ws_of_allowed c (jsIsNumeric_chars otp hn c hc)
  unfold jsTrim
  rw [jsTrimList_eq_self otp.data hws]

theorem verifyOtpRoute_invalid (co : Bool) (st : Store) (c otp : String) (now : Nat)
    (h : validOtpField otp = false) :
    verifyOtpRoute co st c otp now = (.validationError, st) := by
  unfold verifyOtpRoute
  rw [if_neg (by simp [h])]

theorem verifyOtpRoute_valid (st : Store) (c otp : String) (now : Nat)
    (h : validOtpField otp = true) :
    verifyOtpRoute true st c otp now
      = (.ok (verifyOtp st c otp now).1, (verifyOtp st c otp now).2) := by
  unfold verifyOtpRoute
  rw [if_pos (by simp [h])]

/-- C10 (counterexample): the verify route is not invariant under
trimming the candidate, and a whitespace-padded correct code does not
verify: " 123456 " trims to the stored correct code "123456", yet the
route answers validation_error for the padded candidate (the
validateOtpVerification middleware tests the raw otp, 8 characters and
not numeric, before the handler's trim can run) while the trimmed
candidate verifies successfully. -/
theorem C10_counterexample :
    jsTrim " 123456 " = "123456" ∧
    (verifyOtpRoute true (singleStore ⟨1, "a@b", hashOtp "123456" "s", "s", 0, 100, false, 0⟩)
        "a@b" " 123456 " 1).1 = RouteResult.validationError ∧
    (verifyOtpRoute true (singleStore ⟨1, "a@b", hashOtp "123456" "s", "s", 0, 100, false, 0⟩)
        "a@b" (jsTrim " 123456 ") 1).1 = RouteResult.ok .success ∧
    RouteResult.validationError ≠ RouteResult.ok .success :=
  ⟨by decide, by decide, by decide, by decide⟩

/-- C10 (amended): the validateOtpVerification middleware rejects any
candidate whose raw otp is not a 6-character numeric string with
validation_error before the handler runs and without touching the store;
for candidates passing that gate the route behaves as the handler, and
on those candidates the handler's String(otp).trim() is vacuous (they
contain no whitespace), so trim-equivalence holds only there; the
handler body taken in isolation is trim-invariant, but a correct code
submitted with leading or trailing whitespace is rejected by the route
rather than verified. -/
theorem C10_theorem :
    (∀ (co : Bool) (st : Store) (c otp : String) (now : Nat),
      validOtpField otp = false →
      verifyOtpRoute co st c otp now = (.validationError, st)) ∧
    (∀ (st : Store) (c otp : String) (now : Nat),
      validOtpField otp = true →
      verifyOtpRoute true st c otp now
        = (.ok (verifyOtp st c otp now).1, (verifyOtp st c otp now).2)) ∧
    (∀ otp : String, validOtpField otp = true → jsTrim otp = otp) ∧
    (∀ (st : Store) (c otp : String) (now : Nat),
      verifyOtp st c otp now = verifyOtp st c (jsTrim otp) now) :=
  ⟨verifyOtpRoute_invalid, verifyOtpRoute_valid, validOtp_trim_self,
   fun st c otp now => by unfold verifyOtp; rw [jsTrim_idem otp]⟩

/-- C10 witness: a valid 6-digit candidate passes the gate, is untouched
by trim, and verifies through the route. -/
theorem C10_witness :
    validOtpField "123456" = true ∧ jsTrim "123456" = "123456" ∧
    verifyOtpRoute true (singleStore ⟨1, "a@b", hashOtp "123456" "s", "s", 0, 100, false, 0⟩)
        "a@b" "123456" 1
      = (.ok .success, singleStore ⟨1, "a@b", hashOtp "123456" "s", "s", 0, 100, true, 0⟩) :=
  ⟨by decide, C10_theorem.2.2.1 "123456" (by decide), by
    rw [C10_theorem.2.1 (singleStore ⟨1, "a@b", hashOtp "123456" "s", "s", 0, 100, false, 0⟩)
      "a@b" "123456" 1 (by decide)]
    decide⟩

end MediCare
